import Mathlib

/-!
Verification of the retail planning dashboard frontend.

This file gives a shallow embedding of the two source components the
specification's claims are about:

* the SKU Directory page (`src/frontend/src/pages/SKUs.tsx`): client-side
  search filter, pagination, and the network-call handlers `fetchSKU`,
  `createSKU`/`onSubmit` and `handleDelete`;
* the Planning page (store selector plus fetch-on-select planning view):
  the combobox `onSelect` toggle, the `useEffect` that issues a planning
  fetch when the selected store id changes, and the render expression.

JS strings are modelled as Lean `String`, JS arrays as `List`, JS numbers
appearing only as opaque record fields as `Rat` (no claim performs
arithmetic on them), and the asynchronous fetch handlers as explicit
state-transition functions over the components' React state.
-/

/-- A Stock Keeping Unit record: the `SKUs` Prisma model and the `iSKU`
shape consumed by the SKU page. `price` and `cost` are JS numbers; no
claim computes with them, so rationals stand in for floats. -/
structure SKU where
  id : String
  label : String
  «class» : String
  department : String
  price : Rat
  cost : Rat
  deriving Repr, DecidableEq

/-- JS `String.prototype.toLowerCase`, modelled character-wise. -/
def toLowerStr (s : String) : String :=
  ⟨s.data.map Char.toLower⟩

/-- Auxiliary for JS `includes`: `startsWithL needle hay` holds when `hay`
begins with `needle`. -/
def startsWithL : List Char → List Char → Bool
  | [], _ => true
  | _ :: _, [] => false
  | n :: ns, h :: hs => n == h && startsWithL ns hs

/-- Auxiliary for JS `includes` on character lists: some suffix of `hay`
starts with `needle`. -/
def containsL : List Char → List Char → Bool
  | [], needle => startsWithL needle []
  | c :: hs, needle => startsWithL needle (c :: hs) || containsL hs needle

/-- JS `hay.includes(needle)` on strings. -/
def strIncludes (hay needle : String) : Bool :=
  containsL hay.data needle.data

/-- The fixed page size of the SKU Directory (`itemsPerPage` in `SKUs.tsx`). -/
def itemsPerPage : Nat := 10

/-- Line 55 of `SKUs.tsx`: `Math.ceil(allSKUs.length / itemsPerPage)`,
computed from the UNFILTERED list. For naturals, `Math.ceil(n / d)` is
`(n + d - 1) / d` in truncating division. -/
def totalPages (allSKUs : List SKU) : Nat :=
  (allSKUs.length + itemsPerPage - 1) / itemsPerPage

/-- The filter inside `getCurrentPageData` (`SKUs.tsx` lines 140-142): keep
the SKUs whose lowercased label contains the lowercased search query. The
source binds each element as `store`. -/
def filteredStores (allSKUs : List SKU) (searchQuery : String) : List SKU :=
  allSKUs.filter fun store =>
    strIncludes (toLowerStr store.label) (toLowerStr searchQuery)

/-- `getCurrentPageData` (`SKUs.tsx` lines 139-145): filter by the search
query, then `slice(startIndex, startIndex + itemsPerPage)` with
`startIndex = (currentPage - 1) * itemsPerPage`. For a nonnegative start,
JS `slice(a, a + n)` is `drop a` followed by `take n`. -/
def getCurrentPageData (allSKUs : List SKU) (searchQuery : String) (currentPage : Nat) : List SKU :=
  ((filteredStores allSKUs searchQuery).drop ((currentPage - 1) * itemsPerPage)).take itemsPerPage

/-- Modelled from the spec: `slice(filtered, (page-1)*size, page*size)` —
`sliceSpec l a b` is the sublist of `l` from index `a` (inclusive) to `b`
(exclusive), the spec-side statement of pagination to compare with the
source's `getCurrentPageData`. -/
def sliceSpec (l : List SKU) (a b : Nat) : List SKU :=
  (l.drop a).take (b - a)

/-- The example SKU `{id:"S1", label:"Widget"}` from the specification. -/
def widgetSKU : SKU :=
  ⟨"S1", "Widget", "C1", "D1", 5, 3⟩

/-- The example SKU `{id:"S2", label:"Gadget"}` from the specification. -/
def gadgetSKU : SKU :=
  ⟨"S2", "Gadget", "C1", "D1", 7, 4⟩

/-- C1: the claim says `totalPages = ceil(filteredCount / 10)`; the code
computes `Math.ceil(allSKUs.length / itemsPerPage)` from the unfiltered
list. With one SKU whose label does not match the query, the filtered
count is 0 and `ceil(0/10) = 0`, yet `totalPages = 1`. -/
theorem totalPages_ne_ceil_filtered_counterexample :
    ¬ (totalPages [widgetSKU] =
        (filteredStores [widgetSKU] "zzz").length ⌈/⌉ itemsPerPage) := by
  decide

/-- C1 (amended): the total page count is the ceiling of the UNFILTERED
SKU count divided by the page size, for every fetched list and every
search query: it equals `length ⌈/⌉ itemsPerPage` and is the least `n`
with `length ≤ itemsPerPage * n`. -/
theorem totalPages_eq_ceil_unfiltered (allSKUs : List SKU) (searchQuery : String) :
    totalPages allSKUs = allSKUs.length ⌈/⌉ itemsPerPage ∧
    ∀ n : Nat, totalPages allSKUs ≤ n ↔ allSKUs.length ≤ itemsPerPage * n := by
  refine ⟨rfl, fun n => ?_⟩
  unfold totalPages itemsPerPage
  omega

/-- C2: for every SKU list, query and page number ≥ 1, filtering then
paginating yields at most `itemsPerPage` elements, and every element's
label contains the query case-insensitively. -/
theorem getCurrentPageData_le_page_size_and_matches
    (allSKUs : List SKU) (searchQuery : String) (currentPage : Nat)
    (h : 1 ≤ currentPage) :
    (getCurrentPageData allSKUs searchQuery currentPage).length ≤ itemsPerPage ∧
    ∀ sku ∈ getCurrentPageData allSKUs searchQuery currentPage,
      strIncludes (toLowerStr sku.label) (toLowerStr searchQuery) = true := by
  constructor
  · exact List.length_take_le _ _
  · intro sku hmem
    have hfil : sku ∈ filteredStores allSKUs searchQuery :=
      List.mem_of_mem_drop (List.mem_of_mem_take hmem)
    exact (List.mem_filter.mp hfil).2

/-- Witness for C2 at the specification's example: SKUs Widget and Gadget,
query "wid", page 1. -/
theorem getCurrentPageData_le_page_size_and_matches_witness :
    1 ≤ 1 ∧
    ((getCurrentPageData [widgetSKU, gadgetSKU] "wid" 1).length ≤ itemsPerPage ∧
     ∀ sku ∈ getCurrentPageData [widgetSKU, gadgetSKU] "wid" 1,
       strIncludes (toLowerStr sku.label) (toLowerStr "wid") = true) :=
  ⟨Nat.le_refl 1,
   getCurrentPageData_le_page_size_and_matches [widgetSKU, gadgetSKU] "wid" 1 (Nat.le_refl 1)⟩

/-- C3: for every SKU list, query and page `p ≥ 1`, the current page data
equals `slice(filtered, (p-1)*10, p*10)` where `filtered` keeps exactly
the SKUs whose lowercased label contains the lowercased query. -/
theorem getCurrentPageData_eq_sliceSpec
    (allSKUs : List SKU) (searchQuery : String) (p : Nat) (h : 1 ≤ p) :
    getCurrentPageData allSKUs searchQuery p =
      sliceSpec (filteredStores allSKUs searchQuery)
        ((p - 1) * itemsPerPage) (p * itemsPerPage) := by
  unfold getCurrentPageData sliceSpec
  have h10 : p * itemsPerPage - (p - 1) * itemsPerPage = itemsPerPage := by
    unfold itemsPerPage
    omega
  rw [h10]

/-- Witness for C3 at the specification's example list, query "get", page 1. -/
theorem getCurrentPageData_eq_sliceSpec_witness :
    1 ≤ 1 ∧
    getCurrentPageData [widgetSKU, gadgetSKU] "get" 1 =
      sliceSpec (filteredStores [widgetSKU, gadgetSKU] "get")
        ((1 - 1) * itemsPerPage) (1 * itemsPerPage) :=
  ⟨Nat.le_refl 1,
   getCurrentPageData_eq_sliceSpec [widgetSKU, gadgetSKU] "get" 1 (Nat.le_refl 1)⟩

/-- A planning fact row (the `Planning` Prisma model): store id, SKU id,
week, and sales units. -/
structure PlanningRow where
  store : String
  sku : String
  week : String
  salesUnits : Int
  deriving Repr, DecidableEq

/-- What the Planning page renders below the selector (`Planning` lines
116-121): the `PlanningSKU` child with the fetched rows when a store id is
selected (JS truthiness of `value`), else the string "Select a store". -/
inductive PlanningView
  | placeholder (msg : String)
  | planningSKU (skuData : List PlanningRow)
  deriving Repr, DecidableEq

/-- The React state of the `Planning` component that the claims concern:
the selected store id `value`, the fetched rows `skuData`, the planning
requests issued but not yet resolved (in issue order), and the `loading`
flag. -/
structure PlanningState where
  value : String
  skuData : List PlanningRow
  pending : List String
  loading : Bool
  deriving Repr, DecidableEq

/-- The `Planning` component's state on mount: no store selected, no rows,
no in-flight planning request. -/
def planningInit : PlanningState :=
  ⟨"", [], [], true⟩

/-- The body of the `useEffect` on `value` (lines 62-66): when the
selected store id is truthy (nonempty) a planning fetch for it is issued,
otherwise none. -/
def planningEffect (value : String) : Option String :=
  if value = "" then none else some value

/-- The `onSelect` handler of a store `CommandItem` (line 100):
`setValue(currentValue === value ? "" : currentValue)`. -/
def onSelectValue (value currentValue : String) : String :=
  if currentValue = value then "" else currentValue

/-- One user click on the store `CommandItem` for id `s`: the new `value`
comes from `onSelectValue`; if it changed, the `useEffect` on `value`
re-runs and `planningEffect` may append a planning request.
`fetchPlanningData` sets `loading := true` on issue and leaves `skuData`
untouched until its response arrives. -/
def selectStore (st : PlanningState) (s : String) : PlanningState :=
  let newValue := onSelectValue st.value s
  if newValue = st.value then
    { st with value := newValue }
  else
    match planningEffect newValue with
    | none => { st with value := newValue }
    | some storeId =>
        { st with value := newValue, pending := st.pending ++ [storeId], loading := true }

/-- Arrival of the response to the `i`-th in-flight planning request, with
`net` giving the rows the backend returns per store id
(`fetchPlanningData`, lines 48-60): `setSkuData(data)` replaces the rows
wholesale and `finally` clears `loading`. No request-id or abort-token
guard relates the response to the current `value`. -/
def resolvePlanning (net : String → List PlanningRow) (st : PlanningState) (i : Nat) :
    PlanningState :=
  match st.pending.get? i with
  | none => st
  | some storeId =>
      { st with skuData := net storeId,
                pending := st.pending.eraseIdx i,
                loading := false }

/-- The render expression of lines 116-121:
`value ? <PlanningSKU skuData={skuData}/> : "Select a store"`. -/
def renderPlanning (st : PlanningState) : PlanningView :=
  if st.value = "" then .placeholder "Select a store" else .planningSKU st.skuData

/-- An event the `Planning` component reacts to: a store click, or the
arrival of the response to the `i`-th in-flight planning request. -/
inductive PlanningEvent
  | select (s : String)
  | resolve (i : Nat)
  deriving Repr, DecidableEq

/-- One step of the `Planning` component. -/
def planningStep (net : String → List PlanningRow) (st : PlanningState) :
    PlanningEvent → PlanningState
  | .select s => selectStore st s
  | .resolve i => resolvePlanning net st i

/-- A run of the `Planning` component over a sequence of events. -/
def planningRun (net : String → List PlanningRow) (st : PlanningState) :
    List PlanningEvent → PlanningState
  | [] => st
  | e :: es => planningRun net (planningStep net st e) es

/-- A row the backend returns for store "ST035". -/
def rowA : PlanningRow :=
  ⟨"ST035", "SK100", "W01", 5⟩

/-- A row the backend returns for store "ST036". -/
def rowB : PlanningRow :=
  ⟨"ST036", "SK200", "W01", 7⟩

/-- A concrete backend: distinct planning rows for stores "ST035" and
"ST036". -/
def raceNet (storeId : String) : List PlanningRow :=
  if storeId = "ST035" then [rowA]
  else if storeId = "ST036" then [rowB]
  else []

/-- The event sequence of the race: select store A ("ST035"), then select
store B ("ST036"), then B's response arrives first (pending index 1), then
A's stale response arrives (pending index 0). -/
def raceTrace : List PlanningEvent :=
  [.select "ST035", .select "ST036", .resolve 1, .resolve 0]

/-- C4: the claim says that once both planning fetches resolve the display
shows store B's rows regardless of response order. In the run where A is
selected, then B, then B's response lands before A's, both requests have
resolved (`pending = []`) and the selection is B, yet the display shows
store A's rows, not B's: the stale response overwrote the newer one. -/
theorem planning_race_stale_response_wins :
    (planningRun raceNet planningInit raceTrace).pending = [] ∧
    (planningRun raceNet planningInit raceTrace).value = "ST036" ∧
    renderPlanning (planningRun raceNet planningInit raceTrace) = .planningSKU [rowA] ∧
    renderPlanning (planningRun raceNet planningInit raceTrace) ≠
      .planningSKU (raceNet "ST036") := by
  decide

/-- C6: with no store selected (empty `value`), the Planning view renders
the "Select a store" placeholder and the `useEffect` on `value` issues no
planning fetch, whatever rows, pending requests and loading flag the state
holds. -/
theorem planning_empty_value_placeholder_no_fetch
    (rows : List PlanningRow) (pend : List String) (l : Bool) :
    renderPlanning ⟨"", rows, pend, l⟩ = .placeholder "Select a store" ∧
    planningEffect "" = none := by
  constructor <;> rfl

/-- C8: clicking the store id already selected clears the selection to the
empty string; clicking any other store id selects it. -/
theorem onSelectValue_toggles
    (value s : String) :
    (value = s → onSelectValue value s = "") ∧
    (value ≠ s → onSelectValue value s = s) := by
  refine ⟨fun h => ?_, fun h => ?_⟩
  · unfold onSelectValue
    rw [if_pos h.symm]
  · unfold onSelectValue
    rw [if_neg fun e => h e.symm]

/-- Witness for C8: with "ST035" selected, clicking "ST035" clears the
selection and clicking "ST036" selects it. -/
theorem onSelectValue_toggles_witness :
    onSelectValue "ST035" "ST035" = "" ∧ onSelectValue "ST035" "ST036" = "ST036" :=
  ⟨(onSelectValue_toggles "ST035" "ST035").1 rfl,
   (onSelectValue_toggles "ST035" "ST036").2 (by decide)⟩

/-- C10: when the selection changes from a nonempty store id to the empty
string (clicking the selected store again), no planning fetch is issued
(`pending` is unchanged), the previously fetched rows stay in `skuData`,
and the view switches to the placeholder that no longer displays them. -/
theorem planning_deselect_no_fetch_keeps_rows
    (st : PlanningState) (h : st.value ≠ "") :
    (selectStore st st.value).value = "" ∧
    (selectStore st st.value).pending = st.pending ∧
    (selectStore st st.value).skuData = st.skuData ∧
    renderPlanning (selectStore st st.value) = .placeholder "Select a store" := by
  have hv : onSelectValue st.value st.value = "" := by
    unfold onSelectValue
    rw [if_pos rfl]
  have hne : ("" : String) ≠ st.value := fun e => h e.symm
  unfold selectStore
  rw [hv, if_neg hne]
  simp [planningEffect, renderPlanning]

/-- Witness for C10 at a state holding store A's rows with "ST035"
selected. -/
theorem planning_deselect_no_fetch_keeps_rows_witness :
    (("ST035" : String) ≠ "") ∧
    ((selectStore ⟨"ST035", [rowA], [], false⟩ "ST035").value = "" ∧
     (selectStore ⟨"ST035", [rowA], [], false⟩ "ST035").pending = [] ∧
     (selectStore ⟨"ST035", [rowA], [], false⟩ "ST035").skuData = [rowA] ∧
     renderPlanning (selectStore ⟨"ST035", [rowA], [], false⟩ "ST035") =
       .placeholder "Select a store") :=
  ⟨by decide, planning_deselect_no_fetch_keeps_rows ⟨"ST035", [rowA], [], false⟩ (by decide)⟩

/-- A toast shown to the user through `sonner`. -/
inductive Toast
  | success (msg : String)
  | error (msg : String)
  deriving Repr, DecidableEq

/-- The two accepted shapes of a `GET /skus` response body: an object with
a `skus` field, or a bare array. -/
inductive SkusResponse
  | objWithSkus (skus : List SKU)
  | bareArray (arr : List SKU)
  deriving Repr, DecidableEq

/-- The expression `data.skus || data` of `fetchSKU` line 70: in JS any
object — an array included, even an empty one — is truthy, so the `skus`
field is taken whenever it is present, and the bare array otherwise. -/
def skusOrData : SkusResponse → List SKU
  | .objWithSkus skus => skus
  | .bareArray arr => arr

/-- The React state of the SKU page that claims C5, C7 and C9 concern. -/
structure SKUPageState where
  allSKUs : List SKU
  loading : Bool
  deriving Repr, DecidableEq

/-- The observable effects of one handler run: toasts shown, console
errors logged, and follow-up network requests issued (a `fetchSKU`
refetch is recorded as "GET /skus"). An empty `requests` list on a failed
call means the failure triggers no retry. -/
structure Emitted where
  toasts : List Toast
  consoleErrors : List String
  requests : List String
  deriving Repr, DecidableEq

/-- One complete run of `fetchSKU` (`SKUs.tsx` lines 66-76) from state
`st`, with `response = some data` on network success and `none` on
failure: on success `setAllSKUs(data.skus || data)`; on failure the catch
only logs `console.error`; `finally setLoading(false)`. -/
def fetchSKURun (st : SKUPageState) (response : Option SkusResponse) :
    SKUPageState × Emitted :=
  match response with
  | some data => ({ allSKUs := skusOrData data, loading := false }, ⟨[], [], []⟩)
  | none => ({ st with loading := false }, ⟨[], ["Error fetching SKU:"], []⟩)

/-- One run of `handleDelete` (`SKUs.tsx` lines 122-132) with `ok` the
outcome of the DELETE call: on success the list is refetched and a
success toast shown; on failure the catch logs `console.error` and shows
an error toast, and nothing else happens — no retry. -/
def handleDeleteRun (ok : Bool) : Emitted :=
  if ok then ⟨[.success "SKU deleted successfully"], [], ["GET /skus"]⟩
  else ⟨[.error "Failed to delete SKU"], ["Error deleting SKU:"], []⟩

/-- One run of `onSubmit` (`SKUs.tsx` lines 100-115) together with the
`createSKU` it awaits (lines 83-92), with `ok` the outcome of the POST:
on success `createSKU` shows a success toast and `onSubmit` refetches the
list; on failure `createSKU` logs `console.error` and rethrows, and
`onSubmit`'s catch shows an error toast — no retry. -/
def onSubmitRun (ok : Bool) : Emitted :=
  if ok then ⟨[.success "SKU added successfully"], [], ["GET /skus"]⟩
  else ⟨[.error "Failed to add SKU"], ["Error adding SKU:"], []⟩

/-- C5: the claim says every failing SKU Directory network call — the SKU
fetch itself included — is reported to the user via a toast. A failing
`fetchSKU` run emits no toast at all: its catch block only logs to the
console. -/
theorem fetchSKU_failure_emits_no_toast_counterexample :
    (fetchSKURun ⟨[], true⟩ none).2.toasts = [] ∧
    (fetchSKURun ⟨[], true⟩ none).2.consoleErrors ≠ [] := by
  decide

/-- C5 (amended): failing create and delete calls are caught at the call
site, reported via an error toast and not retried; a failing SKU fetch is
caught and logged to the console only — no toast is shown — and likewise
not retried. -/
theorem sku_failures_toast_except_fetch (st : SKUPageState) :
    ((fetchSKURun st none).2.toasts = [] ∧
     (fetchSKURun st none).2.consoleErrors = ["Error fetching SKU:"] ∧
     (fetchSKURun st none).2.requests = []) ∧
    ((handleDeleteRun false).toasts = [.error "Failed to delete SKU"] ∧
     (handleDeleteRun false).requests = []) ∧
    ((onSubmitRun false).toasts = [.error "Failed to add SKU"] ∧
     (onSubmitRun false).requests = []) :=
  ⟨⟨rfl, rfl, rfl⟩, ⟨rfl, rfl⟩, ⟨rfl, rfl⟩⟩

/-- C7: `fetchSKU` accepts both response shapes — `{skus: SKU[]}` and a
bare `SKU[]` — and in both cases the stored SKU list is exactly that
array. -/
theorem fetchSKU_accepts_both_shapes (st : SKUPageState) (l : List SKU) :
    (fetchSKURun st (some (.objWithSkus l))).1.allSKUs = l ∧
    (fetchSKURun st (some (.bareArray l))).1.allSKUs = l :=
  ⟨rfl, rfl⟩

/-- C9: when the SKU fetch fails, `allSKUs` is left exactly as it was and
only the `loading` flag is reset to `false`. -/
theorem fetchSKU_failure_keeps_allSKUs (st : SKUPageState) :
    (fetchSKURun st none).1.allSKUs = st.allSKUs ∧
    (fetchSKURun st none).1.loading = false :=
  ⟨rfl, rfl⟩
